import Mathlib

/-!
Verification of the rating-platform backend.

This file is a shallow embedding of the repository's code:
`backend/server.js` (Express request handlers), `db/schema.sql`
(PostgreSQL tables and constraints), and the front-end aggregation
helpers (`getStoreRating`, `getOverallRating`).

Request handlers become pure functions over explicit database states.
JavaScript dynamic values that matter to the handlers (numbers versus
strings, truthiness, strict equality) are modelled by `JSVal`;
JavaScript numbers are idealised as exact rationals. External effects
(bcrypt hashing and comparison, jwt verification) are abstracted as
function parameters.
-/

namespace RatingPlatform

/-! ## JavaScript value model -/

/-- JavaScript values occurring in JSON request bodies and JWT payloads.
Numbers are idealised as rationals. -/
inductive JSVal where
  | num (q : ℚ)
  | str (s : String)
  | null
  | undefined
deriving DecidableEq, Repr

/-- JavaScript strict equality on the modelled values: values of
different runtime types are never strictly equal. -/
def strictEq : JSVal → JSVal → Bool
  | .num a, .num b => a == b
  | .str a, .str b => a == b
  | .null, .null => true
  | .undefined, .undefined => true
  | _, _ => false

/-- JavaScript falsiness of the modelled values: 0, the empty string,
null and undefined are falsy. -/
def isFalsy : JSVal → Bool
  | .num q => q == 0
  | .str s => s == ""
  | .null => true
  | .undefined => true

/-- Result of the JavaScript Number() coercion: a numeric value or NaN. -/
inductive JSNum where
  | nan
  | num (q : ℚ)
deriving DecidableEq, Repr

/-- Number() applied to a string, for the plain decimal shapes the API
sends: optional sign, digits, optional fractional digits. Other shapes
give NaN, and the empty string gives 0, as in JavaScript. -/
def parseDecimal (s : String) : Option ℚ :=
  match s.splitOn "." with
  | [a] => (a.toInt?).map (fun n => (n : ℚ))
  | [a, b] =>
    match a.toInt?, b.toNat? with
    | some x, some y =>
      let frac : ℚ := (y : ℚ) / ((10 : ℚ) ^ b.length)
      some (if x < 0 then (x : ℚ) - frac else (x : ℚ) + frac)
    | _, _ => none
  | _ => none

/-- The Number() coercion on the modelled values. -/
def jsToNumber : JSVal → JSNum
  | .num q => .num q
  | .str s =>
    if s = "" then .num 0
    else match parseDecimal s with
      | some q => .num q
      | none => .nan
  | .null => .num 0
  | .undefined => .nan

/-! ## Validation helpers (server.js, `validate`) -/

/-- validate.name: at least 20 and at most 60 characters (an absent
name is modelled as the empty string, caught by the lower bound). -/
def nameError (name : String) : Option String :=
  if name.length < 20 then some "Name must be at least 20 characters."
  else if name.length > 60 then some "Name cannot exceed 60 characters."
  else none

/-- validate.address: nonempty and at most 400 characters. -/
def addressError (address : String) : Option String :=
  if address.length = 0 then some "Address is required."
  else if address.length > 400 then some "Address cannot exceed 400 characters."
  else none

/-- The character class A-Z of the uppercase regex in validate.password. -/
def isUpperAZ (c : Char) : Bool := 'A' ≤ c && c ≤ 'Z'

/-- The special characters accepted by validate.password. -/
def specialChars : List Char := "!@#$%^&*()".toList

/-- validate.password: 8 to 16 characters, at least one uppercase
letter, at least one special character. -/
def passwordError (password : String) : Option String :=
  if password.length < 8 then some "Password must be 8-16 characters."
  else if password.length > 16 then some "Password must be 8-16 characters."
  else if password.data.any isUpperAZ = false then
    some "Password must include at least one uppercase letter."
  else if password.data.any (fun c => specialChars.contains c) = false then
    some "Password must include at least one special character."
  else none

/-- Whitespace class of the regex \s, restricted to the common ASCII
whitespace characters. -/
def isSpaceChar (c : Char) : Bool :=
  c == ' ' || c == '\t' || c == '\n' || c == '\r' || c == '\x0b' || c == '\x0c'

/-- Split a character list at every occurrence of a separator,
mirroring JavaScript String.prototype.split on a single character. -/
def splitOnChar (sep : Char) : List Char → List (List Char)
  | [] => [[]]
  | c :: cs =>
    let rest := splitOnChar sep cs
    if c = sep then [] :: rest
    else
      match rest with
      | [] => [[c]]
      | r :: rs => (c :: r) :: rs

/-- The email regex of validate.email: one or more non-space non-at
characters, an at sign, one or more such characters, a dot, and one or
more such characters.  Splitting at the at sign, this is: exactly one
at sign, a nonempty space-free local part, and a space-free domain
containing a dot that is neither its first nor its last character. -/
def emailMatches (email : String) : Bool :=
  match splitOnChar '@' email.data with
  | [loc, dom] =>
    !loc.isEmpty && loc.all (fun c => !(isSpaceChar c)) &&
    dom.all (fun c => !(isSpaceChar c)) &&
    ((dom.drop 1).dropLast.contains '.')
  | _ => false

/-- validate.email. -/
def emailError (email : String) : Option String :=
  if emailMatches email then none else some "Invalid email format."

/-- validate.rating: Number() coercion, then a range check.  Note the
source checks only NaN and the range, never integrality. -/
def ratingError (rating : JSVal) : Option String :=
  match jsToNumber rating with
  | .nan => some "Rating must be between 1 and 5."
  | .num r => if r < 1 ∨ 5 < r then some "Rating must be between 1 and 5." else none

/-! ## Authentication middleware -/

/-- Decoded JWT payload: server.js signs id, email and role. -/
structure TokenPayload where
  id : ℤ
  email : String
  role : String
deriving DecidableEq, Repr

/-- Outcome of the authenticateToken middleware. -/
inductive AuthResult where
  | reject (status : ℕ) (message : String)
  | accept (user : TokenPayload)
deriving DecidableEq, Repr

/-- HTTP status of a rejected authentication, none on acceptance. -/
def AuthResult.status : AuthResult → Option ℕ
  | .reject s _ => some s
  | .accept _ => none

/-- Token extraction of authenticateToken: the second space-separated
component of the Authorization header. -/
def tokenFromHeader (authHeader : Option String) : Option String :=
  authHeader.bind (fun h => ((splitOnChar ' ' h.data).map List.asString)[1]?)

/-- The authenticateToken middleware.  A missing (or falsy) token is
rejected with 401; a present token failing jwt.verify (abstracted as
the verify parameter, none meaning invalid or expired) is rejected
with 403. -/
def authenticateToken (authHeader : Option String)
    (verify : String → Option TokenPayload) : AuthResult :=
  match tokenFromHeader authHeader with
  | none => .reject 401 "Access token required"
  | some t =>
    if t = "" then .reject 401 "Access token required"
    else
      match verify t with
      | none => .reject 403 "Invalid or expired token"
      | some u => .accept u

/-- The requireAdmin middleware: 403 unless the decoded role is admin. -/
def requireAdmin (user : TokenPayload) : Option (ℕ × String) :=
  if user.role ≠ "admin" then some (403, "Admin access required") else none

/-- The requireStoreOwner middleware. -/
def requireStoreOwner (user : TokenPayload) : Option (ℕ × String) :=
  if user.role ≠ "store_owner" then some (403, "Store owner access required") else none

/-- The requireUser middleware. -/
def requireUser (user : TokenPayload) : Option (ℕ × String) :=
  if user.role ≠ "user" then some (403, "User access required") else none

/-! ## Database model (db/schema.sql) -/

/-- Row of the users table. -/
structure UserRow where
  id : ℕ
  name : String
  email : String
  password : String
  address : String
  role : String
deriving DecidableEq, Repr

/-- Row of the stores table. -/
structure StoreRow where
  id : ℕ
  name : String
  email : String
  address : String
  owner_id : ℕ
deriving DecidableEq, Repr

/-- Row of the ratings table; the rating column is INTEGER. -/
structure RatingRow where
  id : ℕ
  user_id : ℤ
  store_id : ℤ
  rating : ℤ
deriving DecidableEq, Repr

/-- The ratings table together with its SERIAL id counter. -/
structure RatingsDB where
  rows : List RatingRow
  nextId : ℕ
deriving DecidableEq, Repr

/-- Whether a ratings row belongs to the given (user, store) pair. -/
def matchKey (u s : ℤ) (r : RatingRow) : Bool :=
  r.user_id == u && r.store_id == s

/-- INSERT INTO ratings ... ON CONFLICT (user_id, store_id) DO UPDATE
SET rating: if a row for the pair exists its rating is overwritten in
place, otherwise a fresh row is appended.  The SERIAL counter is
consumed either way. -/
def upsertRating (db : RatingsDB) (u s v : ℤ) : RatingsDB :=
  if db.rows.any (matchKey u s) then
    { rows := db.rows.map (fun r => if matchKey u s r then { r with rating := v } else r),
      nextId := db.nextId + 1 }
  else
    { rows := db.rows ++ [⟨db.nextId, u, s, v⟩], nextId := db.nextId + 1 }

/-- The ratings rows stored for a (user, store) pair. -/
def rowsFor (db : RatingsDB) (u s : ℤ) : List RatingRow :=
  db.rows.filter (matchKey u s)

/-- Values node-pg can bind to an INTEGER column: an integral number,
or a string parsing as an integer.  Anything else makes the statement
fail. -/
def jsvalToIntCol : JSVal → Option ℤ
  | .num q => if q.den = 1 then some q.num else none
  | .str s => s.toInt?
  | _ => none

/-- The INSERT statement of POST /api/ratings, including the INTEGER
column types and the CHECK (rating BETWEEN 1 AND 5) constraint of the
schema; none models a rejected statement. -/
def dbSubmitRating (db : RatingsDB) (userId storeId rating : JSVal) : Option RatingsDB :=
  match jsvalToIntCol userId, jsvalToIntCol storeId, jsvalToIntCol rating with
  | some u, some s, some v =>
    if 1 ≤ v ∧ v ≤ 5 then some (upsertRating db u s v) else none
  | _, _, _ => none

/-! ## POST /api/ratings -/

/-- JSON body of POST /api/ratings. -/
structure RatingRequest where
  userId : JSVal
  storeId : JSVal
  rating : JSVal
deriving DecidableEq, Repr

/-- The POST /api/ratings handler, entered after authenticateToken
succeeded with the decoded numeric id authId.  In source order: the
strict self-scope check, validate.rating, the storeId truthiness
check, then the upsert; a failing statement is caught as 500. -/
def submitRating (authId : JSVal) (body : RatingRequest) (db : RatingsDB) : ℕ × RatingsDB :=
  if strictEq authId body.userId = false then (403, db)
  else
    match ratingError body.rating with
    | some _ => (400, db)
    | none =>
      if isFalsy body.storeId then (400, db)
      else
        match dbSubmitRating db body.userId body.storeId body.rating with
        | none => (500, db)
        | some db2 => (201, db2)

/-- One rating submission by user u for store s with value v, as the
handler performs it; used to fold call sequences. -/
def submitStep (u s : ℤ) (d : RatingsDB) (v : ℤ) : RatingsDB :=
  (submitRating (.num (u : ℚ)) ⟨.num (u : ℚ), .num (s : ℚ), .num (v : ℚ)⟩ d).2

/-! ## Front-end aggregation (getStoreRating, getOverallRating) -/

/-- A rating object as the front end receives it from GET
/api/data/ratings after field renaming. -/
structure ClientRating where
  id : ℕ
  userId : ℤ
  storeId : ℤ
  rating : ℚ
deriving DecidableEq, Repr

/-- toFixed(1), idealised over exact rationals: round to the nearest
tenth. -/
def toFixed1 (q : ℚ) : ℚ := ((round (10 * q) : ℤ) : ℚ) / 10

/-- getStoreRating from the admin dashboard: filter the ratings of the
store; the string 0.0 for an empty set, otherwise the sum divided by
the count, rendered with toFixed(1). -/
def getStoreRating (ratings : List ClientRating) (storeId : ℤ) : ℚ :=
  let storeRatings := ratings.filter (fun r => r.storeId == storeId)
  if storeRatings.length = 0 then 0
  else toFixed1 ((storeRatings.map (fun r => r.rating)).sum / (storeRatings.length : ℚ))

/-- getOverallRating from the user dashboard (same computation). -/
def getOverallRating (ratings : List ClientRating) (storeId : ℤ) : ℚ :=
  let storeRatings := ratings.filter (fun r => r.storeId == storeId)
  if storeRatings.length = 0 then 0
  else toFixed1 ((storeRatings.map (fun r => r.rating)).sum / (storeRatings.length : ℚ))

/-- averageRating as worded in the specification: the arithmetic mean
of the store's rating values rounded to one decimal place, with the
zero sentinel for an empty rating set. -/
def averageRatingSpec (ratings : List ClientRating) (storeId : ℤ) : ℚ :=
  let vals := (ratings.filter (fun r => r.storeId == storeId)).map (fun r => r.rating)
  if vals = [] then 0 else toFixed1 (vals.sum / (vals.length : ℚ))

/-! ## Login, signup, user listing -/

/-- A login or signup response: an error with status and message, or a
success whose body has the given field keys (field values other than
the shape of the key set are not needed by the claims). -/
inductive LoginResponse where
  | err (status : ℕ) (message : String)
  | ok (keys : List String)
deriving DecidableEq, Repr

/-- The keys of the JSON body of a response; an error body has the
single key message. -/
def LoginResponse.bodyKeys : LoginResponse → List String
  | .err _ _ => ["message"]
  | .ok ks => ks

/-- Column list of the SELECT in the login handler. -/
def selectUserColumns : List String :=
  ["id", "name", "email", "role", "address", "password"]

/-- The POST /api/auth/login handler.  The bcrypt comparison is
abstracted as the cmp parameter.  The user object is built from
selectUserColumns, its password key is deleted before responding, a
storeId key is added for store owners, and the token key is appended. -/
def login (email password : String) (users : List UserRow)
    (cmp : String → String → Bool) : LoginResponse :=
  if email = "" ∨ password = "" then .err 400 "Email and password are required"
  else
    match users.find? (fun u => u.email == email) with
    | none => .err 401 "Invalid credentials"
    | some user =>
      if cmp password user.password = false then .err 401 "Invalid credentials"
      else
        let userKeys := selectUserColumns.erase "password"
        let userKeys := if user.role == "store_owner" then userKeys ++ ["storeId"] else userKeys
        .ok (userKeys ++ ["token"])

/-- The users and stores tables with their SERIAL counters. -/
structure DB where
  users : List UserRow
  stores : List StoreRow
  nextUserId : ℕ
  nextStoreId : ℕ
deriving DecidableEq, Repr

/-- PostgreSQL error classes the handlers distinguish: a unique
violation (SQLSTATE 23505) or anything else. -/
inductive PgError where
  | uniqueViolation
  | otherError
deriving DecidableEq, Repr

/-- INSERT INTO users.  The VARCHAR(60) name column with its CHECK
(length 20 to 60), the VARCHAR(255) email column and the CHECK on
address reject out-of-bound values as non-unique-violation errors
before the unique email constraint fires.  The password column holds a
fixed-width bcrypt hash and the role arguments at every call site are
values the role CHECK accepts, so neither is modelled as failing. -/
def insertUser (db : DB) (name email password address role : String) :
    Except PgError (ℕ × DB) :=
  if name.length < 20 ∨ name.length > 60 ∨ email.length > 255 ∨ address.length > 400 then
    .error .otherError
  else if db.users.any (fun u => u.email == email) then .error .uniqueViolation
  else
    .ok (db.nextUserId,
      { db with
        users := db.users ++ [⟨db.nextUserId, name, email, password, address, role⟩],
        nextUserId := db.nextUserId + 1 })

/-- INSERT INTO stores.  The VARCHAR(60) name column with its CHECK,
the VARCHAR(255) email column and the CHECK on address reject
out-of-bound values as non-unique-violation errors before the unique
email and unique owner_id constraints fire. -/
def insertStore (db : DB) (name email address : String) (ownerId : ℕ) :
    Except PgError (ℕ × DB) :=
  if name.length < 20 ∨ name.length > 60 ∨ email.length > 255 ∨ address.length > 400 then
    .error .otherError
  else if db.stores.any (fun s => s.email == email || s.owner_id == ownerId) then
    .error .uniqueViolation
  else
    .ok (db.nextStoreId,
      { db with
        stores := db.stores ++ [⟨db.nextStoreId, name, email, address, ownerId⟩],
        nextStoreId := db.nextStoreId + 1 })

/-- Column list of the INSERT ... RETURNING in the signup handler. -/
def signupReturningColumns : List String := ["id", "name", "email", "role", "address"]

/-- The POST /api/auth/signup handler; hash abstracts bcrypt.hash. -/
def signup (name email address password : String) (db : DB)
    (hash : String → String) : LoginResponse × DB :=
  match nameError name <|> emailError email <|> addressError address <|>
      passwordError password with
  | some msg => (.err 400 msg, db)
  | none =>
    if db.users.any (fun u => u.email == email) then (.err 400 "Email already exists", db)
    else
      match insertUser db name email (hash password) address "user" with
      | .error _ => (.err 500 "Server error during signup.", db)
      | .ok (_, db2) => (.ok (signupReturningColumns ++ ["token"]), db2)

/-- Keys of each row object returned by GET /api/data/users (the
object literal of the handler; storeId is null for non-owners). -/
def usersListRowKeys : List String := ["id", "name", "email", "role", "address", "storeId"]

/-! ## Admin provisioning endpoints -/

/-- JSON body of POST /api/admin/users. -/
structure AccountPayload where
  name : String
  email : String
  address : String
  password : String
  role : String
deriving DecidableEq, Repr

/-- JSON body of POST /api/admin/stores. -/
structure StorePayload where
  name : String
  email : String
  address : String
deriving DecidableEq, Repr

/-- The POST /api/admin/users handler, entered after authenticateToken
succeeded with the decoded payload caller; requireAdmin runs before
the handler body.  In source order: role gate, field validation, role
whitelist, duplicate-email check, insert. -/
def adminCreateUser (caller : TokenPayload) (body : AccountPayload) (db : DB)
    (hash : String → String) : ℕ × DB :=
  match requireAdmin caller with
  | some (s, _) => (s, db)
  | none =>
    match nameError body.name <|> emailError body.email <|> addressError body.address <|>
        passwordError body.password with
    | some _ => (400, db)
    | none =>
      if body.role = "admin" ∨ body.role = "user" then
        if db.users.any (fun u => u.email == body.email) then (400, db)
        else
          match insertUser db body.name body.email (hash body.password) body.address body.role with
          | .error _ => (500, db)
          | .ok (_, db2) => (201, db2)
      else (400, db)

/-- The POST /api/admin/stores handler: requireAdmin, validation, then
one transaction inserting the owner user and the store; any error
rolls the state back to db; a unique violation yields 400, any other
error 500. -/
def adminCreateStore (caller : TokenPayload) (body : StorePayload) (db : DB)
    (hash : String → String) : ℕ × DB :=
  match requireAdmin caller with
  | some (s, _) => (s, db)
  | none =>
    match nameError body.name <|> emailError body.email <|> addressError body.address with
    | some _ => (400, db)
    | none =>
      match insertUser db (body.name ++ " Owner") body.email (hash "Store@123")
          body.address "store_owner" with
      | .error e => (if e = .uniqueViolation then 400 else 500, db)
      | .ok (ownerId, db1) =>
        match insertStore db1 body.name body.email body.address ownerId with
        | .error e => (if e = .uniqueViolation then 400 else 500, db)
        | .ok (_, db2) => (201, db2)

/-! ## Theorems -/

/-- C8: validate.password accepts exactly the strings of 8 to 16
characters containing at least one uppercase letter and at least one
character from the special set; the probes short1! (7 characters) and
alllowercase1! (no uppercase) fail, while Valid@123 passes. -/
theorem password_validation_characterised :
    (∀ s : String, passwordError s = none ↔
      (8 ≤ s.length ∧ s.length ≤ 16 ∧ s.data.any isUpperAZ = true ∧
        s.data.any (fun c => specialChars.contains c) = true)) ∧
    passwordError "short1!" ≠ none ∧
    passwordError "alllowercase1!" ≠ none ∧
    passwordError "Valid@123" = none := by
  refine ⟨?_, by decide, by decide, by decide⟩
  intro s
  unfold passwordError
  split_ifs with h1 h2 h3 h4
  · exact iff_of_false (by simp) (fun h => absurd h.1 (by omega))
  · exact iff_of_false (by simp) (fun h => absurd h.2.1 (by omega))
  · exact iff_of_false (by simp) (fun h => by rw [h.2.2.1] at h3; exact absurd h3 (by decide))
  · exact iff_of_false (by simp) (fun h => by rw [h.2.2.2] at h4; exact absurd h4 (by decide))
  · exact iff_of_true rfl
      ⟨by omega, by omega, by simpa using h3, by simpa using h4⟩

/-- C4: validate.rating performs no integrality check, so the
non-integer 3.5 passes validation; the submission then proceeds to the
INSERT, where the INTEGER rating column rejects it and the handler
answers 500 — not the 400 validation failure before any storage write
that the claim (and the schema's intent) describe. -/
theorem rating_three_point_five_reaches_storage :
    ratingError (.num (7 / 2)) = none ∧
    submitRating (.num 1) ⟨.num 1, .num 1, .num (7 / 2)⟩ ⟨[], 1⟩ = (500, ⟨[], 1⟩) := by
  have hden : ((7 : ℚ) / 2).den ≠ 1 := by norm_num [Rat.den]
  have hval : ratingError (.num (7 / 2)) = none := by
    simp only [ratingError, jsToNumber]
    rw [if_neg (by norm_num)]
  refine ⟨hval, ?_⟩
  unfold submitRating
  rw [if_neg (by simp [strictEq]), hval]
  rw [if_neg (by simp [isFalsy])]
  unfold dbSubmitRating jsvalToIntCol
  simp [hden]

/-- C3 counterexample: a request carrying a present but invalid bearer
token is rejected with status 403, not with the 401 the claim states
for invalid or expired tokens. -/
theorem invalid_token_rejected_403_not_401 :
    (authenticateToken (some "Bearer notvalid") (fun _ => none)).status = some 403 ∧
    (403 : ℕ) ≠ 401 := by
  exact ⟨rfl, by decide⟩

/-- C3 (amended): a missing bearer token is rejected with 401; a
present but invalid or expired token is rejected with 403; a wrong
role is rejected with 403; and an identity mismatch on rating
submission is rejected with 403. -/
theorem auth_status_codes (authHeader : Option String)
    (verify : String → Option TokenPayload) (t : String) (u : TokenPayload) :
    authenticateToken none verify = .reject 401 "Access token required" ∧
    (tokenFromHeader authHeader = some t → t ≠ "" → verify t = none →
      authenticateToken authHeader verify = .reject 403 "Invalid or expired token") ∧
    (u.role ≠ "admin" → requireAdmin u = some (403, "Admin access required")) ∧
    (∀ (uid : JSVal) (body : RatingRequest) (db : RatingsDB),
      strictEq uid body.userId = false → submitRating uid body db = (403, db)) := by
  refine ⟨rfl, ?_, ?_, ?_⟩
  · intro ht hne hv
    unfold authenticateToken
    simp [ht, hne, hv]
  · intro hrole
    unfold requireAdmin
    rw [if_pos hrole]
  · intro uid body db h
    unfold submitRating
    rw [if_pos h]

/-- Witness for the amended C3 statement at concrete inputs. -/
theorem auth_status_codes_witness :
    authenticateToken none (fun _ => none) = .reject 401 "Access token required" ∧
    authenticateToken (some "Bearer expired") (fun _ => none)
      = .reject 403 "Invalid or expired token" ∧
    requireAdmin ⟨7, "u@a.com", "user"⟩ = some (403, "Admin access required") ∧
    submitRating (.num 7) ⟨.num 8, .num 1, .num 5⟩ ⟨[], 1⟩ = (403, ⟨[], 1⟩) := by
  have h := auth_status_codes (some "Bearer expired") (fun _ => none) "expired"
    ⟨7, "u@a.com", "user"⟩
  exact ⟨h.1, h.2.1 rfl (by decide) rfl, h.2.2.1 (by decide),
    h.2.2.2 (.num 7) ⟨.num 8, .num 1, .num 5⟩ ⟨[], 1⟩ (by simp [strictEq])⟩

/-- C5: a non-admin authenticated caller invoking either admin-only
creation endpoint receives 403 and the database is untouched, for
every payload: the requireAdmin gate runs before any validation or
business logic. -/
theorem non_admin_creation_forbidden (caller : TokenPayload)
    (hrole : caller.role ≠ "admin") :
    ∀ (ubody : AccountPayload) (sbody : StorePayload) (db : DB) (hash : String → String),
      adminCreateUser caller ubody db hash = (403, db) ∧
      adminCreateStore caller sbody db hash = (403, db) := by
  intro ubody sbody db hash
  have h : requireAdmin caller = some (403, "Admin access required") := by
    unfold requireAdmin
    rw [if_pos hrole]
  constructor
  · unfold adminCreateUser
    rw [h]
  · unfold adminCreateStore
    rw [h]

/-- Witness for C5 at concrete inputs, one per endpoint. -/
theorem non_admin_creation_forbidden_witness :
    adminCreateUser ⟨2, "jane@user.com", "user"⟩
        ⟨"Jane Doe Normal User Account", "jane@user.com", "456 Normal Street",
          "User@123", "admin"⟩
        ⟨[], [], 1, 1⟩ (fun _ => "H") = (403, ⟨[], [], 1, 1⟩) ∧
    adminCreateStore ⟨2, "jane@user.com", "user"⟩
        ⟨"MegaMart Superstore Chain", "megamart@store.com", "700 Industrial Avenue"⟩
        ⟨[], [], 1, 1⟩ (fun _ => "H") = (403, ⟨[], [], 1, 1⟩) :=
  non_admin_creation_forbidden ⟨2, "jane@user.com", "user"⟩ (by decide) _ _ _ _

/-- C7: a failed login is indistinguishable between an email absent
from the users table and an email present with a non-matching
password: the two responses are equal, and (for nonempty inputs) both
are the generic 401 Invalid credentials. -/
theorem login_failure_indistinguishable (e p : String) (cmp : String → String → Bool)
    (db1 db2 : List UserRow) (u : UserRow)
    (habsent : db1.find? (fun r => r.email == e) = none)
    (hpresent : db2.find? (fun r => r.email == e) = some u)
    (hmismatch : cmp p u.password = false) :
    login e p db1 cmp = login e p db2 cmp ∧
    (¬ e = "" → ¬ p = "" → login e p db1 cmp = .err 401 "Invalid credentials") := by
  unfold login
  by_cases h : e = "" ∨ p = ""
  · rw [if_pos h, if_pos h]
    exact ⟨rfl, fun he hp => absurd h (by tauto)⟩
  · constructor
    · rw [if_neg h, if_neg h, habsent, hpresent]
      simp [hmismatch]
    · intro _ _
      rw [if_neg h, habsent]

/-- Witness for C7: the concrete failure response for an unknown email
equals the generic one, with the known-email hypotheses discharged on
a one-row table. -/
theorem login_failure_indistinguishable_witness :
    login "ghost@x.com" "Wrong@123" [] (fun _ _ => false)
      = login "ghost@x.com" "Wrong@123"
          [⟨1, "Jane Doe Normal User Account", "ghost@x.com", "HASH", "addr", "user"⟩]
          (fun _ _ => false) ∧
    login "ghost@x.com" "Wrong@123" [] (fun _ _ => false)
      = .err 401 "Invalid credentials" := by
  have h := login_failure_indistinguishable "ghost@x.com" "Wrong@123" (fun _ _ => false)
    [] [⟨1, "Jane Doe Normal User Account", "ghost@x.com", "HASH", "addr", "user"⟩]
    ⟨1, "Jane Doe Normal User Account", "ghost@x.com", "HASH", "addr", "user"⟩
    rfl (by decide) rfl
  exact ⟨h.1, h.2 (by decide) (by decide)⟩

/-- C9: the password hash never appears outward: the login response
body never holds the password key (the handler deletes it), nor does
the signup response (the RETURNING list never selects it), nor any row
of the user listing. -/
theorem password_field_never_in_responses :
    (∀ (e p : String) (users : List UserRow) (cmp : String → String → Bool),
        "password" ∉ (login e p users cmp).bodyKeys) ∧
    (∀ (n e a pw : String) (db : DB) (hash : String → String),
        "password" ∉ ((signup n e a pw db hash).1).bodyKeys) ∧
    "password" ∉ usersListRowKeys := by
  refine ⟨?_, ?_, by decide⟩
  · intro e p users cmp
    unfold login
    split
    · decide
    · split
      · decide
      · split
        · decide
        · split
          · decide
          · decide
  · intro n e a pw db hash
    unfold signup
    split
    · simp [LoginResponse.bodyKeys]
    · split
      · simp [LoginResponse.bodyKeys]
      · split
        · simp [LoginResponse.bodyKeys]
        · simp [LoginResponse.bodyKeys, signupReturningColumns]

/-- Witness for C9 at a concrete login call. -/
theorem password_field_never_in_responses_witness :
    "password" ∉ (login "jane@user.com" "User@123" [] (fun _ _ => true)).bodyKeys :=
  password_field_never_in_responses.1 "jane@user.com" "User@123" [] (fun _ _ => true)

/-- C6 counterexample: a valid 60-character store name makes the
derived owner name (name plus the Owner suffix) 66 characters, so even
with an email colliding with an existing user's email the owner INSERT
fails on the users.name column bound, a non-unique-violation error,
and the handler answers 500, not the 400 the claim states — the state
is in the claim's scope since validation passes and the email
collides. -/
theorem create_store_long_owner_name_gets_500 :
    nameError "MegaMart Superstore Chain Grand Plaza Hypermarket Downtown X" = none ∧
    ([⟨1, "MegaMart Owner Account Manager", "megamart@owner.com", "H",
        "700 Industrial Avenue", "store_owner"⟩] : List UserRow).any
      (fun u => u.email == "megamart@owner.com") = true ∧
    adminCreateStore ⟨1, "admin@app.com", "admin"⟩
        ⟨"MegaMart Superstore Chain Grand Plaza Hypermarket Downtown X",
          "megamart@owner.com", "700 Industrial Avenue"⟩
        ⟨[⟨1, "MegaMart Owner Account Manager", "megamart@owner.com", "H",
            "700 Industrial Avenue", "store_owner"⟩], [], 2, 1⟩
        (fun _ => "H")
      = (500, ⟨[⟨1, "MegaMart Owner Account Manager", "megamart@owner.com", "H",
            "700 Industrial Avenue", "store_owner"⟩], [], 2, 1⟩) ∧
    (500 : ℕ) ≠ 400 :=
  ⟨by decide, by decide, by decide, by decide⟩

/-- C6 (amended): createStoreWithOwner is all-or-nothing — every
non-success outcome returns the database exactly unchanged, zero new
rows in users and in stores.  When the payload is valid, the store
name has at most 54 characters (so the derived owner name fits the
60-character users.name column), and the stored emails fit their
255-character columns (as the schema guarantees), an email colliding
with an existing user's email — or with an existing store's email —
fails the whole operation with the DuplicateEmail 400; with a valid
55-to-60-character store name the operation instead fails with 500,
still persisting nothing. -/
theorem create_store_with_owner_rollback (caller : TokenPayload) (body : StorePayload)
    (db : DB) (hash : String → String)
    (hadmin : caller.role = "admin")
    (hname : nameError body.name = none)
    (hemail : emailError body.email = none)
    (haddr : addressError body.address = none)
    (hfit : body.name.length ≤ 54)
    (husers : ∀ u ∈ db.users, u.email.length ≤ 255)
    (hstores : ∀ s ∈ db.stores, s.email.length ≤ 255) :
    (db.users.any (fun u => u.email == body.email) = true →
      adminCreateStore caller body db hash = (400, db)) ∧
    (db.users.any (fun u => u.email == body.email) = false →
      db.stores.any (fun s => s.email == body.email) = true →
      adminCreateStore caller body db hash = (400, db)) ∧
    (∀ (body2 : StorePayload) (db2 : DB) (hash2 : String → String),
      (adminCreateStore caller body2 db2 hash2).1 ≠ 201 →
      (adminCreateStore caller body2 db2 hash2).2 = db2) := by
  have hgate : requireAdmin caller = none := by
    unfold requireAdmin
    rw [if_neg (by simp [hadmin])]
  have hval : (nameError body.name <|> emailError body.email <|> addressError body.address)
      = none := by
    rw [hname, hemail, haddr]
    rfl
  have hnb : 20 ≤ body.name.length ∧ body.name.length ≤ 60 := by
    unfold nameError at hname
    split_ifs at hname with h1 h2
    exact ⟨by omega, by omega⟩
  have hab : body.address.length ≤ 400 := by
    unfold addressError at haddr
    split_ifs at haddr with h1 h2
    omega
  have hlen6 : (" Owner" : String).length = 6 := by decide
  refine ⟨?_, ?_, ?_⟩
  · intro hdup
    obtain ⟨u0, hu0, hequ⟩ := List.any_eq_true.mp hdup
    have he255 : body.email.length ≤ 255 := by
      rw [← beq_iff_eq.mp hequ]
      exact husers u0 hu0
    have hc1 : ¬((body.name ++ " Owner").length < 20 ∨ (body.name ++ " Owner").length > 60
        ∨ body.email.length > 255 ∨ body.address.length > 400) := by
      rw [String.length_append, hlen6]
      omega
    have hins : insertUser db (body.name ++ " Owner") body.email (hash "Store@123")
        body.address "store_owner" = .error .uniqueViolation := by
      unfold insertUser
      rw [if_neg hc1, if_pos hdup]
    unfold adminCreateStore
    simp only [hgate, hval, hins]
    simp
  · intro hdup hsdup
    obtain ⟨s0, hs0, heqs⟩ := List.any_eq_true.mp hsdup
    have he255 : body.email.length ≤ 255 := by
      rw [← beq_iff_eq.mp heqs]
      exact hstores s0 hs0
    have hc1 : ¬((body.name ++ " Owner").length < 20 ∨ (body.name ++ " Owner").length > 60
        ∨ body.email.length > 255 ∨ body.address.length > 400) := by
      rw [String.length_append, hlen6]
      omega
    have hc2 : ¬(body.name.length < 20 ∨ body.name.length > 60
        ∨ body.email.length > 255 ∨ body.address.length > 400) := by
      omega
    have hstores2 :
        db.stores.any (fun s => s.email == body.email || s.owner_id == db.nextUserId)
          = true :=
      List.any_eq_true.mpr ⟨s0, hs0, by simp [heqs]⟩
    have hins : insertUser db (body.name ++ " Owner") body.email (hash "Store@123")
        body.address "store_owner"
        = .ok (db.nextUserId,
            ⟨db.users ++ [⟨db.nextUserId, body.name ++ " Owner", body.email,
                hash "Store@123", body.address, "store_owner"⟩],
              db.stores, db.nextUserId + 1, db.nextStoreId⟩) := by
      unfold insertUser
      rw [if_neg hc1, if_neg (by simp [hdup])]
    have hins2 : ∀ d : DB, d.stores = db.stores →
        insertStore d body.name body.email body.address db.nextUserId
          = .error .uniqueViolation := by
      intro d hd
      unfold insertStore
      rw [if_neg hc2, if_pos (by rw [hd]; exact hstores2)]
    unfold adminCreateStore
    simp only [hgate, hval, hins]
    rw [hins2 ⟨db.users ++ [(⟨db.nextUserId, body.name ++ " Owner", body.email,
        hash "Store@123", body.address, "store_owner"⟩ : UserRow)],
      db.stores, db.nextUserId + 1, db.nextStoreId⟩ rfl]
    simp
  · intro body2 db2 hash2
    unfold adminCreateStore
    split
    · intro _
      rfl
    · split
      · intro _
        rfl
      · split
        · intro _
          rfl
        · split
          · intro _
            rfl
          · intro h
            exact absurd rfl h

/-- Witness for the amended C6: a colliding owner email on a one-user
database, with a 25-character store name, rolls back with 400. -/
theorem create_store_with_owner_rollback_witness :
    adminCreateStore ⟨1, "admin@app.com", "admin"⟩
        ⟨"MegaMart Superstore Chain", "megamart@owner.com", "700 Industrial Avenue"⟩
        ⟨[⟨1, "MegaMart Owner Account Manager", "megamart@owner.com", "H",
            "700 Industrial Avenue", "store_owner"⟩], [], 2, 1⟩
        (fun _ => "H")
      = (400, ⟨[⟨1, "MegaMart Owner Account Manager", "megamart@owner.com", "H",
            "700 Industrial Avenue", "store_owner"⟩], [], 2, 1⟩) :=
  (create_store_with_owner_rollback ⟨1, "admin@app.com", "admin"⟩
    ⟨"MegaMart Superstore Chain", "megamart@owner.com", "700 Industrial Avenue"⟩
    ⟨[⟨1, "MegaMart Owner Account Manager", "megamart@owner.com", "H",
        "700 Industrial Avenue", "store_owner"⟩], [], 2, 1⟩
    (fun _ => "H") rfl (by decide) (by decide) (by decide) (by decide) (by decide)
    (by decide)).1 (by decide)

/-- C2: the aggregation helpers compute the arithmetic mean rounded to
one decimal place (the specification's wording), the two dashboard
helpers agree, the mean over ratings 5 and 4 displays as 4.5 and over
5, 4 and 3 as 4.0, and an empty rating set yields the 0.0 sentinel. -/
theorem average_rating_correct :
    (∀ (ratings : List ClientRating) (sid : ℤ),
        getStoreRating ratings sid = averageRatingSpec ratings sid) ∧
    (∀ (ratings : List ClientRating) (sid : ℤ),
        getOverallRating ratings sid = getStoreRating ratings sid) ∧
    getStoreRating [⟨1, 10, 1, 5⟩, ⟨2, 11, 1, 4⟩] 1 = 9 / 2 ∧
    getStoreRating [⟨1, 10, 1, 5⟩, ⟨2, 11, 1, 4⟩, ⟨3, 12, 1, 3⟩] 1 = 4 ∧
    (∀ (ratings : List ClientRating) (sid : ℤ),
        ratings.filter (fun r => r.storeId == sid) = [] →
        getStoreRating ratings sid = 0) := by
  refine ⟨?_, ?_, ?_, ?_, ?_⟩
  · intro ratings sid
    unfold getStoreRating averageRatingSpec
    by_cases h : (ratings.filter (fun r => r.storeId == sid)).length = 0
    · have h0 : ratings.filter (fun r => r.storeId == sid) = [] :=
        List.length_eq_zero.mp h
      rw [if_pos h, if_pos (by rw [h0]; rfl)]
    · have h0 : ¬ (ratings.filter (fun r => r.storeId == sid)).map (fun r => r.rating)
          = [] := by
        intro hm
        exact h (by simpa using congrArg List.length hm)
      rw [if_neg h, if_neg h0, List.length_map]
  · intro ratings sid
    rfl
  · show getStoreRating [⟨1, 10, 1, 5⟩, ⟨2, 11, 1, 4⟩] 1 = 9 / 2
    rw [getStoreRating]
    norm_num [List.filter, toFixed1]
  · show getStoreRating [⟨1, 10, 1, 5⟩, ⟨2, 11, 1, 4⟩, ⟨3, 12, 1, 3⟩] 1 = 4
    rw [getStoreRating]
    norm_num [List.filter, toFixed1]
  · intro ratings sid h
    unfold getStoreRating
    simp [h]

/-- Witness for the empty-set sentinel conjunct of C2 at a concrete
input whose rating list mentions only another store. -/
theorem average_rating_correct_witness :
    getStoreRating [⟨1, 10, 2, 5⟩] 1 = 0 :=
  average_rating_correct.2.2.2.2 [⟨1, 10, 2, 5⟩] 1 (by decide)

/-- A submission whose body userId equals the authenticated numeric
id, with an integral rating in range and a nonzero numeric store id,
passes every check of the handler and performs exactly the upsert. -/
theorem submitRating_valid_eq (u s v : ℤ) (db : RatingsDB) (hs : s ≠ 0)
    (h1 : 1 ≤ v) (h5 : v ≤ 5) :
    submitRating (.num (u : ℚ)) ⟨.num (u : ℚ), .num (s : ℚ), .num (v : ℚ)⟩ db
      = (201, upsertRating db u s v) := by
  have hv1 : ¬ ((v : ℚ) < 1) := not_lt.mpr (by exact_mod_cast h1)
  have hv5 : ¬ (5 < (v : ℚ)) := not_lt.mpr (by exact_mod_cast h5)
  have hval : ratingError (.num (v : ℚ)) = none := by
    simp only [ratingError, jsToNumber]
    rw [if_neg (by tauto)]
  have hsf : isFalsy (.num (s : ℚ)) = false := by
    simp only [isFalsy]
    simp [beq_eq_false_iff_ne]
    exact_mod_cast hs
  have hcol : ∀ n : ℤ, jsvalToIntCol (.num (n : ℚ)) = some n := by
    intro n
    simp only [jsvalToIntCol]
    rw [if_pos (Rat.den_intCast n), Rat.num_intCast]
  have hdb : dbSubmitRating db (.num (u : ℚ)) (.num (s : ℚ)) (.num (v : ℚ))
      = some (upsertRating db u s v) := by
    unfold dbSubmitRating
    rw [hcol u, hcol s, hcol v]
    simp [h1, h5]
  unfold submitRating
  rw [if_neg (by simp [strictEq]), hval, if_neg (by simp [hsf]), hdb]

/-- C10: the self-scope check of POST /api/ratings uses strict,
type-sensitive equality: a body userId holding the decimal-string form
of the caller's own numeric id is rejected with 403 for every store id
and rating value, while the exact number passes the check and a valid
submission answers 201. -/
theorem rating_self_check_is_strict (u : ℤ) :
    (∀ (sid rv : JSVal) (db : RatingsDB),
        submitRating (.num (u : ℚ)) ⟨.str (toString u), sid, rv⟩ db = (403, db)) ∧
    (∀ (s v : ℤ) (db : RatingsDB), s ≠ 0 → 1 ≤ v → v ≤ 5 →
        (submitRating (.num (u : ℚ)) ⟨.num (u : ℚ), .num (s : ℚ), .num (v : ℚ)⟩ db).1
          = 201) := by
  constructor
  · intro sid rv db
    unfold submitRating
    rw [if_pos (show strictEq (.num (u : ℚ)) (.str (toString u)) = false from rfl)]
  · intro s v db hs h1 h5
    rw [submitRating_valid_eq u s v db hs h1 h5]

/-- Witness for C10: user id 5 sending the string form of 5 is
rejected, while the number 5 with a valid rating succeeds. -/
theorem rating_self_check_is_strict_witness :
    submitRating (.num ((5 : ℤ) : ℚ)) ⟨.str (toString (5 : ℤ)), .num 1, .num 4⟩ ⟨[], 1⟩
      = (403, ⟨[], 1⟩) ∧
    (submitRating (.num ((5 : ℤ) : ℚ))
        ⟨.num ((5 : ℤ) : ℚ), .num ((1 : ℤ) : ℚ), .num ((4 : ℤ) : ℚ)⟩ ⟨[], 1⟩).1 = 201 :=
  ⟨(rating_self_check_is_strict 5).1 (.num 1) (.num 4) ⟨[], 1⟩,
   (rating_self_check_is_strict 5).2 1 4 ⟨[], 1⟩ (by decide) (by decide) (by decide)⟩

/-- Filtering after mapping commutes with mapping after filtering when
the map preserves the predicate. -/
theorem filter_map_comm {α : Type} (p : α → Bool) (f : α → α)
    (hf : ∀ a, p (f a) = p a) :
    ∀ l : List α, (l.map f).filter p = (l.filter p).map f := by
  intro l
  induction l with
  | nil => rfl
  | cons a l ih =>
    simp only [List.map_cons, List.filter_cons, hf a]
    cases hpa : p a
    · simpa [hpa] using ih
    · simpa [hpa] using ih

/-- An upsert leaves exactly one row for the pair, carrying the new
value, whenever the table held at most one row for the pair (the
uniqueness constraint of the schema guarantees the hypothesis). -/
theorem rowsFor_upsert (db : RatingsDB) (u s v : ℤ)
    (hinv : (rowsFor db u s).length ≤ 1) :
    ∃ id, rowsFor (upsertRating db u s v) u s = [⟨id, u, s, v⟩] := by
  have hrows : (upsertRating db u s v).rows
      = if db.rows.any (matchKey u s) = true
        then db.rows.map (fun r => if matchKey u s r then { r with rating := v } else r)
        else db.rows ++ [⟨db.nextId, u, s, v⟩] := by
    unfold upsertRating
    split
    · rfl
    · rfl
  unfold rowsFor at hinv ⊢
  rw [hrows]
  by_cases hany : db.rows.any (matchKey u s) = true
  · rw [if_pos hany]
    rw [filter_map_comm (matchKey u s)
      (fun r => if matchKey u s r then { r with rating := v } else r)
      (by intro a
          dsimp only
          split
          · rfl
          · rfl)]
    have hne : db.rows.filter (matchKey u s) ≠ [] := by
      obtain ⟨x, hx, hpx⟩ := List.any_eq_true.mp hany
      exact List.ne_nil_of_mem (List.mem_filter.mpr ⟨hx, hpx⟩)
    have hlen : (db.rows.filter (matchKey u s)).length = 1 := by
      have := List.length_pos.mpr hne
      omega
    obtain ⟨r0, hr0⟩ := List.length_eq_one.mp hlen
    have hr0mem : r0 ∈ db.rows.filter (matchKey u s) := by
      rw [hr0]
      exact List.mem_cons_self r0 []
    have hkey : matchKey u s r0 = true := (List.mem_filter.mp hr0mem).2
    have hus : r0.user_id = u ∧ r0.store_id = s := by
      unfold matchKey at hkey
      rw [Bool.and_eq_true] at hkey
      exact ⟨beq_iff_eq.mp hkey.1, beq_iff_eq.mp hkey.2⟩
    refine ⟨r0.id, ?_⟩
    rw [hr0]
    simp only [List.map_cons, List.map_nil, if_pos hkey]
    rw [hus.1, hus.2]
  · rw [if_neg hany]
    rw [List.filter_append]
    have h1 : db.rows.filter (matchKey u s) = [] := by
      rw [List.filter_eq_nil_iff]
      intro a ha hpa
      exact hany (List.any_eq_true.mpr ⟨a, ha, hpa⟩)
    have h2 : [(⟨db.nextId, u, s, v⟩ : RatingRow)].filter (matchKey u s)
        = [⟨db.nextId, u, s, v⟩] := by
      simp [List.filter_cons, matchKey]
    exact ⟨db.nextId, by rw [h1, h2, List.nil_append]⟩

/-- Folding a nonempty sequence of valid submissions by one user for
one store leaves exactly one row for the pair, holding the last
submitted value. -/
theorem submitSeq_aux (u s : ℤ) (hs : s ≠ 0) :
    ∀ (vs : List ℤ) (db : RatingsDB) (w : ℤ),
      (∀ v ∈ vs, 1 ≤ v ∧ v ≤ 5) →
      (rowsFor db u s).length ≤ 1 →
      vs.getLast? = some w →
      ∃ id, rowsFor (vs.foldl (submitStep u s) db) u s = [⟨id, u, s, w⟩] := by
  intro vs
  induction vs with
  | nil =>
    intro db w _ _ hlast
    exact absurd hlast (by simp)
  | cons v rest ih =>
    intro db w hvalid hinv hlast
    have hv := hvalid v (List.mem_cons_self v rest)
    have hstep : submitStep u s db v = upsertRating db u s v := by
      unfold submitStep
      rw [submitRating_valid_eq u s v db hs hv.1 hv.2]
    rw [List.foldl_cons, hstep]
    cases rest with
    | nil =>
      have hw : v = w := by simpa using hlast
      rw [List.foldl_nil, ← hw]
      exact rowsFor_upsert db u s v hinv
    | cons v2 rest2 =>
      have hlast2 : (v2 :: rest2).getLast? = some w := by
        rw [← List.getLast?_cons_cons (a := v)]
        exact hlast
      obtain ⟨id1, hid1⟩ := rowsFor_upsert db u s v hinv
      have hinv2 : (rowsFor (upsertRating db u s v) u s).length ≤ 1 := by
        rw [hid1]
        simp
      exact ih (upsertRating db u s v) w
        (fun x hx => hvalid x (List.mem_cons_of_mem v hx)) hinv2 hlast2

/-- C1: for every (user, store) pair, any nonempty sequence of
submitRating calls by that user for that store with valid values
leaves exactly one Rating row for the pair, whose value is the value
of the last call: the first call inserts and later calls overwrite in
place. -/
theorem submit_rating_upsert_semantics (u s : ℤ) (vs : List ℤ) (w : ℤ) (db : RatingsDB)
    (hs : s ≠ 0)
    (hvalid : ∀ v ∈ vs, 1 ≤ v ∧ v ≤ 5)
    (hinv : (rowsFor db u s).length ≤ 1)
    (hlast : vs.getLast? = some w) :
    ∃ id, rowsFor (vs.foldl (submitStep u s) db) u s = [⟨id, u, s, w⟩] :=
  submitSeq_aux u s hs vs db w hvalid hinv hlast

/-- Witness for C1: user 1 rates store 1 with 5 then 3 on an empty
table; exactly one row remains, holding 3. -/
theorem submit_rating_upsert_semantics_witness :
    ∃ id, rowsFor ([5, 3].foldl (submitStep 1 1) ⟨[], 1⟩) 1 1 = [⟨id, 1, 1, 3⟩] :=
  submit_rating_upsert_semantics 1 1 [5, 3] 3 ⟨[], 1⟩ (by decide) (by decide)
    (by decide) (by decide)

end RatingPlatform
